import Mathlib

/-!
Shallow embedding of the `dlog` logging package
(`vendor/github.com/jedisct1/dlog/dlog.go`).

The package is a process-wide leveled logger.  We model its global state
(`globals` in the source) as an explicit record, its external effects
(file opens, syslog construction, writes, process exit) as a trace of
events, and the environment (wall clock, success of the lazy destination
construction) as an explicit `Env` record.  `logf` is translated
branch-for-branch from the Go source; panics (nil-pointer dereference,
failed open/construction, index out of range) and `os.Exit` are modelled
in the `Term` outcome of each call.
-/

namespace Dlog

/-- Go: `type Severity int32`.  We model the value as an unbounded `Int`;
conversions that truncate to 32 bits are modelled explicitly. -/
abbrev Severity := Int

def SeverityDebug : Severity := 0
def SeverityInfo : Severity := 1
def SeverityNotice : Severity := 2
def SeverityWarning : Severity := 3
def SeverityError : Severity := 4
def SeverityCritical : Severity := 5
def SeverityFatal : Severity := 6
def SeverityLast : Severity := 7

/-- Go: `var SeverityName = []string{...}` (indexed by severity ordinal). -/
def SeverityName : List String :=
  ["DEBUG", "INFO", "NOTICE", "WARNING", "ERROR", "CRITICAL", "FATAL"]

/-- Go: `var severityToSyslogPriority = []gsyslog.Priority{...}`.
The numeric values are the `gsyslog` constants (LOG_DEBUG = 7, LOG_INFO = 6,
LOG_NOTICE = 5, LOG_WARNING = 4, LOG_ERR = 3, LOG_CRIT = 2, LOG_ALERT = 1). -/
def severityToSyslogPriority : List Nat := [7, 6, 5, 4, 3, 2, 1]

/-- Wall-clock timestamp as decomposed by `now.Date()` / `now.Clock()`. -/
structure DateTime where
  year : Int
  month : Int
  day : Int
  hour : Int
  minute : Int
  second : Int
deriving Repr, DecidableEq

/-- Go: `type globals struct {...}`.  Pointers (`*bool`, `*string`,
`*gsyslog.Syslogger`, `*os.File`) are modelled as `Option`; a resolved
handle carries no further data relevant to the claims. -/
structure Globals where
  logLevel : Severity
  useSyslog : Option Bool
  appName : String
  syslogFacility : String
  syslogger : Option Unit
  fileName : Option String
  outFd : Option Unit
deriving Repr, DecidableEq

/-- Go: `_globals = globals{logLevel: SeverityLast, appName: "-"}` with all
other fields at their zero values (nil pointers, empty string). -/
def initialGlobals : Globals :=
  { logLevel := SeverityLast
    useSyslog := none
    appName := "-"
    syslogFacility := ""
    syslogger := none
    fileName := none
    outFd := none }

/-- Externally visible effects of a call, in program order. -/
inductive Event where
  | newSyslogger (facility appName : String)
  | openFile (path : String)
  | syslogWrite (priority : Nat) (message : String)
  | fileWrite (line : String)
  | stderrWrite (line : String)
deriving Repr, DecidableEq

/-- How a call to the logger ends: a normal return, `os.Exit(code)`, or a
runtime panic (nil dereference, failed open/construction, bad index). -/
inductive Term where
  | normal
  | exited (code : Nat)
  | panicked (reason : String)
deriving Repr, DecidableEq

/-- Result of one call: the updated globals, the emitted events in order,
and how the call terminated. -/
structure LogResult where
  g : Globals
  events : List Event
  term : Term
deriving Repr, DecidableEq

/-- Environment of a call: the wall clock and whether the two fallible
external constructions (`gsyslog.NewLogger`, `os.OpenFile`) succeed. -/
structure Env where
  now : DateTime
  syslogOk : Bool
  openOk : Bool
deriving Repr, DecidableEq

/-- Go: `strings.TrimSuffix(s, suffix)` — removes one trailing occurrence
of `suffix` when present (computed on the character list). -/
def goTrimSuffix (s suffix : String) : String :=
  if suffix.data.isSuffixOf s.data then
    ⟨s.data.take (s.data.length - suffix.data.length)⟩
  else s

/-- Go: `unicode.IsSpace`, as used by `strings.TrimSpace`: Latin-1
whitespace plus the Unicode White_Space code points. -/
def goIsSpace (c : Char) : Bool :=
  let n := c.toNat
  n = 0x20 || n = 0x9 || n = 0xA || n = 0xB || n = 0xC || n = 0xD ||
  n = 0x85 || n = 0xA0 || n = 0x1680 || (0x2000 ≤ n && n ≤ 0x200A) ||
  n = 0x2028 || n = 0x2029 || n = 0x202F || n = 0x205F || n = 0x3000

/-- Go: `strings.TrimSpace(s)` — drops leading and trailing whitespace. -/
def goTrimSpace (s : String) : String :=
  ⟨((s.data.dropWhile goIsSpace).reverse.dropWhile goIsSpace).reverse⟩

/-- The message transformation applied by `logf` (line 167 of the source):
`strings.TrimSpace(strings.TrimSuffix(message, "\n"))`. -/
def renderTrim (message : String) : String :=
  goTrimSpace (goTrimSuffix message "\n")

/-- Go: `%02d` formatting of an integer (zero-pad to width 2). -/
def pad2 (n : Int) : String :=
  let s := toString n
  if s.length < 2 then "0" ++ s else s

/-- The line format of the source, line 190:
`"[%d-%02d-%02d %02d:%02d:%02d] [%s] [%s] %s\n"` — note the year is
formatted with `%d`, unpadded. -/
def formatLine (t : DateTime) (appName sevName message : String) : String :=
  "[" ++ toString t.year ++ "-" ++ pad2 t.month ++ "-" ++ pad2 t.day ++ " " ++
  pad2 t.hour ++ ":" ++ pad2 t.minute ++ ":" ++ pad2 t.second ++ "] [" ++
  appName ++ "] [" ++ sevName ++ "] " ++ message ++ "\n"

/-- Go: `%04d` formatting of an integer (zero-pad to width 4). -/
def pad4 (n : Int) : String :=
  let s := toString n
  if s.length < 4 then String.mk (List.replicate (4 - s.length) (Char.ofNat 48)) ++ s
  else s

/-- The line format as the spec words it (byte-exact contract
`[%04d-%02d-%02d %02d:%02d:%02d] [%s] [%s] %s\n`, four-digit zero-padded
year).  Stated from the spec for comparison with `formatLine`, which is
taken from the source. -/
def formatLineSpec (t : DateTime) (appName sevName message : String) : String :=
  "[" ++ pad4 t.year ++ "-" ++ pad2 t.month ++ "-" ++ pad2 t.day ++ " " ++
  pad2 t.hour ++ ":" ++ pad2 t.minute ++ ":" ++ pad2 t.second ++ "] [" ++
  appName ++ "] [" ++ sevName ++ "] " ++ message ++ "\n"

/-- Lines 173–179 of the source: if `*useSyslog` is set and no syslogger
exists, construct one (panicking on failure). -/
def resolveSyslogger (env : Env) (g : Globals) (useSyslogVal : Bool) :
    Except String (Globals × List Event) :=
  if useSyslogVal && g.syslogger.isNone then
    if env.syslogOk then
      .ok ({ g with syslogger := some () },
           [.newSyslogger g.syslogFacility g.appName])
    else .error "gsyslog.NewLogger failed"
  else .ok (g, [])

/-- Lines 180–186 of the source: if a non-empty file name is configured and
no handle exists, open the file for append/create (panicking on failure). -/
def resolveOutFd (env : Env) (g : Globals) : Except String (Globals × List Event) :=
  match g.fileName with
  | some fn =>
    if fn.length > 0 && g.outFd.isNone then
      if env.openOk then .ok ({ g with outFd := some () }, [.openFile fn])
      else .error "os.OpenFile failed"
    else .ok (g, [])
  | none => .ok (g, [])

/-- Lines 187–197 of the source: write to the syslogger if one exists, else
format a line and write it to the file handle if one exists, else to
standard error.  Indexing `severityToSyslogPriority[severity]` /
`SeverityName[severity]` out of bounds is a Go runtime panic. -/
def writeStep (env : Env) (g : Globals) (severity : Severity) (message : String) :
    Except String (List Event) :=
  if 0 ≤ severity ∧ severity < 7 then
    if g.syslogger.isSome then
      .ok [.syslogWrite (severityToSyslogPriority.getD severity.toNat 0) message]
    else
      if g.outFd.isSome then
        .ok [.fileWrite (formatLine env.now g.appName
          (SeverityName.getD severity.toNat "") message)]
      else
        .ok [.stderrWrite (formatLine env.now g.appName
          (SeverityName.getD severity.toNat "") message)]
  else .error "runtime error: index out of range"

/-- Go: `func logf(severity Severity, format string, args ...interface{})`
(lines 159–201).  The printf rendering `fmt.Sprintf(format, args...)` is an
input here: `message0` is the already-rendered message. -/
def logf (env : Env) (g : Globals) (severity : Severity) (message0 : String) :
    LogResult :=
  if severity < g.logLevel then ⟨g, [], .normal⟩
  else
    let message := renderTrim message0
    if message.length ≤ 0 then ⟨g, [], .normal⟩
    else
      match g.useSyslog with
      | none => ⟨g, [], .panicked "invalid memory address or nil pointer dereference"⟩
      | some useSyslogVal =>
        match resolveSyslogger env g useSyslogVal with
        | .error e => ⟨g, [], .panicked e⟩
        | .ok (g1, ev1) =>
          match resolveOutFd env g1 with
          | .error e => ⟨g1, ev1, .panicked e⟩
          | .ok (g2, ev2) =>
            match writeStep env g2 severity message with
            | .error e => ⟨g2, ev1 ++ ev2, .panicked e⟩
            | .ok ev3 =>
              ⟨g2, ev1 ++ ev2 ++ ev3,
               if severity ≥ SeverityFatal then .exited 255 else .normal⟩

/-- Public formatted variants (lines 67–93): thin forwarders into `logf`
with the severity fixed; the message is the rendered format result. -/
def Debugf (env : Env) (g : Globals) (message : String) : LogResult :=
  logf env g SeverityDebug message

def Infof (env : Env) (g : Globals) (message : String) : LogResult :=
  logf env g SeverityInfo message

def Noticef (env : Env) (g : Globals) (message : String) : LogResult :=
  logf env g SeverityNotice message

def Warnf (env : Env) (g : Globals) (message : String) : LogResult :=
  logf env g SeverityWarning message

def Errorf (env : Env) (g : Globals) (message : String) : LogResult :=
  logf env g SeverityError message

def Criticalf (env : Env) (g : Globals) (message : String) : LogResult :=
  logf env g SeverityCritical message

def Fatalf (env : Env) (g : Globals) (message : String) : LogResult :=
  logf env g SeverityFatal message

/-- Go: `func Init(appName string, logLevel Severity, syslogFacility string) error`
(lines 145–157).  Registering the `-syslog` and `-logfile` flags stores
pointers to fresh values with defaults `false` and `""`.  Always returns
`nil` (modelled as `none` in the error slot). -/
def Init (g : Globals) (appName : String) (logLevel : Severity)
    (syslogFacility : String) : Globals × Option String :=
  let fac := if syslogFacility.length = 0 then "DAEMON" else syslogFacility
  ({ g with
      logLevel := logLevel
      appName := appName
      syslogFacility := fac
      useSyslog := some false
      fileName := some "" }, none)

/-- Go: `func (s *Severity) String() string` —
`strconv.FormatInt(int64(*s), 10)`.  (Named `SeverityString` here because a
declaration called `Severity.String` would shadow the `String` type.) -/
def SeverityString (s : Severity) : String := toString s

/-- Value of `c` as a decimal digit, for ASCII digits. -/
def digitVal (c : Char) : Nat := c.toNat - 48

/-- Whether a character list is a non-empty run of ASCII digits. -/
def allDigits (l : List Char) : Bool :=
  !l.isEmpty && l.all (fun c => 48 ≤ c.toNat && c.toNat ≤ 57)

def digitsToNat (l : List Char) : Nat :=
  l.foldl (fun acc c => acc * 10 + digitVal c) 0

def maxInt64 : Int := 2 ^ 63 - 1
def minInt64 : Int := -(2 ^ 63)

/-- Split an optional leading sign (`+` is code point 43, `-` is 45) from
the digits of a decimal numeral; first component is `true` for negative. -/
def goAtoiSign (s : String) : Bool × List Char :=
  match s.data with
  | c :: rest =>
    if c.toNat = 43 then (false, rest)
    else if c.toNat = 45 then (true, rest)
    else (false, c :: rest)
  | [] => (false, [])

/-- Whether a string is a syntactically well-formed base-10 integer
(optional sign followed by at least one ASCII digit). -/
def goAtoiSyntaxOk (s : String) : Bool := allDigits (goAtoiSign s).2

/-- Go: `strconv.Atoi` with the error discarded, as on line 140 of the
source: an optionally-signed decimal string parses to its value (clamped to
the `int64` range on overflow); any syntactically malformed input yields 0. -/
def goAtoi (s : String) : Int :=
  if goAtoiSyntaxOk s then
    let sd := goAtoiSign s
    let v : Int := (digitsToNat sd.2 : Int)
    let v := if sd.1 then -v else v
    if v > maxInt64 then maxInt64 else if v < minInt64 then minInt64 else v
  else 0

/-- Go conversion `Severity(val)`: truncation of an `int` to `int32`
(two's complement, low 32 bits). -/
def int32ofInt (n : Int) : Int :=
  (n + 2 ^ 31) % 2 ^ 32 - 2 ^ 31

/-- Go: `func (s *Severity) Set(strVal string) error` (lines 139–143):
stores `Severity(val)` where `val, _ = strconv.Atoi(strVal)`, and always
returns `nil`. -/
def Severity.Set (strVal : String) : Severity × Option String :=
  (int32ofInt (goAtoi strVal), none)

/-- Events that are writes (a produced line or a syslog write). -/
def isWriteEvent : Event → Bool
  | .syslogWrite _ _ => true
  | .fileWrite _ => true
  | .stderrWrite _ => true
  | _ => false

def isOpenEvent : Event → Bool
  | .openFile _ => true
  | _ => false

def isNewSysloggerEvent : Event → Bool
  | .newSyslogger _ _ => true
  | _ => false

def writeCount (evs : List Event) : Nat := (evs.filter isWriteEvent).length

def openCount (evs : List Event) : Nat := (evs.filter isOpenEvent).length

def newSysloggerCount (evs : List Event) : Nat :=
  (evs.filter isNewSysloggerEvent).length

/-! Concrete fixtures used to instantiate the theorems below. -/

/-- A sample environment: a fixed clock, both external constructions succeed. -/
def env0 : Env := ⟨⟨2024, 3, 9, 7, 5, 30⟩, true, true⟩

/-- An environment whose clock sits in a three-digit year. -/
def env999 : Env := ⟨⟨999, 1, 2, 3, 4, 5⟩, true, true⟩

/-- Globals as left by `Init("myapp", SeverityDebug, "")` with the registered
flags at their defaults: no syslog, empty file path (standard error). -/
def gStderr : Globals :=
  { logLevel := 0, useSyslog := some false, appName := "myapp",
    syslogFacility := "DAEMON", syslogger := none, fileName := some "",
    outFd := none }

/-- Globals with both the syslog switch and a log-file path configured. -/
def gBoth : Globals :=
  { logLevel := 0, useSyslog := some true, appName := "app",
    syslogFacility := "DAEMON", syslogger := none, fileName := some "app.log",
    outFd := none }

/-- Globals with only a log-file path configured. -/
def gFile : Globals :=
  { logLevel := 0, useSyslog := some false, appName := "app",
    syslogFacility := "DAEMON", syslogger := none, fileName := some "app.log",
    outFd := none }

/-- Globals with only the syslog switch configured. -/
def gSyslogOnly : Globals :=
  { logLevel := 0, useSyslog := some true, appName := "app",
    syslogFacility := "DAEMON", syslogger := none, fileName := some "",
    outFd := none }

/-! Helper lemmas. -/

lemma string_length_le_zero_iff (s : String) : s.length ≤ 0 ↔ s = "" := by
  obtain ⟨l⟩ := s
  cases l with
  | nil => exact ⟨fun _ => rfl, fun _ => Nat.le_refl 0⟩
  | cons c cs =>
    constructor
    · intro h
      simp [String.length] at h
    · intro h
      exact absurd (congrArg String.data h) (by simp)

/-- A call filtered out by the severity threshold is a complete no-op. -/
lemma logf_filtered (env : Env) (g : Globals) (sev : Severity) (m : String)
    (h : sev < g.logLevel) : logf env g sev m = ⟨g, [], Term.normal⟩ := by
  unfold logf
  rw [if_pos h]

/-- Claim C3: a message that trims to empty is discarded: nothing is
written, no destination is resolved, the state is unchanged, and the call
returns normally (no process exit) at every severity, Fatal included. -/
theorem dlog_C3 (env : Env) (g : Globals) (sev : Severity) (m : String)
    (h : renderTrim m = "") : logf env g sev m = ⟨g, [], Term.normal⟩ := by
  by_cases hlt : sev < g.logLevel
  · exact logf_filtered env g sev m hlt
  · unfold logf
    rw [if_neg hlt]
    have hz : (renderTrim m).length ≤ 0 := by
      rw [h]
      exact Nat.le_refl 0
    simp only [hz, if_true, ite_true]

theorem dlog_C3_witness :
    renderTrim "  \n" = "" ∧
    logf env0 gStderr SeverityFatal "  \n" = ⟨gStderr, [], Term.normal⟩ :=
  ⟨by decide, dlog_C3 env0 gStderr SeverityFatal "  \n" (by decide)⟩

/-- Claim C6: without `Init`, the threshold stays at the sentinel
`SeverityLast`, which is strictly above all seven real severities, so every
public-severity call against the initial globals is silently filtered:
no events, no state change, normal return. -/
theorem dlog_C6 :
    initialGlobals.logLevel = SeverityLast ∧
    (∀ sev : Severity, SeverityDebug ≤ sev → sev ≤ SeverityFatal →
      sev < SeverityLast) ∧
    (∀ (env : Env) (sev : Severity) (m : String),
      SeverityDebug ≤ sev → sev ≤ SeverityFatal →
      logf env initialGlobals sev m = ⟨initialGlobals, [], Term.normal⟩) := by
  refine ⟨rfl, fun sev h1 h2 => ?_, fun env sev m h1 h2 => ?_⟩
  · have h2' : sev ≤ (6 : Int) := h2
    exact lt_of_le_of_lt h2' (by decide)
  · have h2' : sev ≤ (6 : Int) := h2
    exact logf_filtered env initialGlobals sev m (lt_of_le_of_lt h2' (by decide))

theorem dlog_C6_witness :
    ((3 : Severity) < SeverityLast) ∧
    logf env0 initialGlobals SeverityFatal "boom" =
      ⟨initialGlobals, [], Term.normal⟩ :=
  ⟨dlog_C6.2.1 3 (by decide) (by decide),
   dlog_C6.2.2 env0 SeverityFatal "boom" (by decide) (by decide)⟩

/-- Claim C8: `Init` always returns success (a `nil` error) and defaults an
empty facility to `"DAEMON"`; `Severity.Set` also always returns success,
and on a malformed (non-base-10-integer) string it stores 0. -/
theorem dlog_C8 :
    (∀ (g : Globals) (a : String) (l : Severity) (f : String),
      (Init g a l f).2 = none) ∧
    (∀ (g : Globals) (a : String) (l : Severity),
      (Init g a l "").1.syslogFacility = "DAEMON") ∧
    (∀ s : String, (Severity.Set s).2 = none) ∧
    (∀ s : String, goAtoiSyntaxOk s = false → Severity.Set s = (0, none)) := by
  refine ⟨fun g a l f => rfl, fun g a l => rfl, fun s => rfl, fun s h => ?_⟩
  unfold Severity.Set goAtoi
  rw [h]
  simp [int32ofInt]

theorem dlog_C8_witness :
    (Init initialGlobals "myapp" 2 "").2 = none ∧
    (Init initialGlobals "myapp" 2 "").1.syslogFacility = "DAEMON" ∧
    (Severity.Set "not-a-number").2 = none ∧
    Severity.Set "not-a-number" = (0, none) :=
  ⟨dlog_C8.1 initialGlobals "myapp" 2 "",
   dlog_C8.2.1 initialGlobals "myapp" 2,
   dlog_C8.2.2.1 "not-a-number",
   dlog_C8.2.2.2 "not-a-number" (by decide)⟩

/-- Claim C9: rendering a severity to its base-10 string and parsing it
back restores the value: `Set(String(s))` stores `s`, for every severity
level `s` of the enumeration. -/
theorem dlog_C9 (s : Severity) (h1 : SeverityDebug ≤ s) (h2 : s ≤ SeverityLast) :
    Severity.Set (SeverityString s) = (s, none) := by
  have h1' : (0 : Int) ≤ s := h1
  have h2' : s ≤ (7 : Int) := h2
  interval_cases s <;> decide

theorem dlog_C9_witness :
    Severity.Set (SeverityString SeverityCritical) = (SeverityCritical, none) :=
  dlog_C9 SeverityCritical (by decide) (by decide)

/-- Claim C10: before `Init`, the syslog switch and file-path pointers are
both nil, yet no public-severity call dereferences them: the sentinel
threshold filters every such call before the destination code runs.  If the
threshold alone is lowered (pointers still nil), the very same call reaches
the dereference and panics — the sentinel default is what makes pre-Init
calls safe. -/
theorem dlog_C10 :
    initialGlobals.useSyslog = none ∧ initialGlobals.fileName = none ∧
    (∀ (env : Env) (sev : Severity) (m : String),
      SeverityDebug ≤ sev → sev ≤ SeverityFatal →
      (logf env initialGlobals sev m).term = Term.normal ∧
      (logf env initialGlobals sev m).events = []) ∧
    (∀ (env : Env) (m : String), renderTrim m ≠ "" →
      (logf env { initialGlobals with logLevel := SeverityDebug }
          SeverityInfo m).term =
        Term.panicked "invalid memory address or nil pointer dereference") := by
  refine ⟨rfl, rfl, fun env sev m h1 h2 => ?_, fun env m h => ?_⟩
  · have h2' : sev ≤ (6 : Int) := h2
    have heq := logf_filtered env initialGlobals sev m
      (lt_of_le_of_lt h2' (by decide))
    rw [heq]
    exact ⟨rfl, rfl⟩
  · have hm : ¬ ((renderTrim m).length ≤ 0) := by
      rw [string_length_le_zero_iff]
      exact h
    simp [logf, initialGlobals, hm, SeverityInfo, SeverityDebug]

theorem dlog_C10_witness :
    ((logf env0 initialGlobals SeverityWarning "hi").term = Term.normal ∧
     (logf env0 initialGlobals SeverityWarning "hi").events = []) ∧
    (logf env0 { initialGlobals with logLevel := SeverityDebug }
        SeverityInfo "x").term =
      Term.panicked "invalid memory address or nil pointer dereference" :=
  ⟨dlog_C10.2.2.1 env0 SeverityWarning "hi" (by decide) (by decide),
   dlog_C10.2.2.2 env0 "x" (by decide)⟩

/-- Claim C1, counterexample: a call whose severity passes the threshold
(`Info ≥ Debug`) but whose message trims to empty produces zero writes, not
exactly one — the claim as stated fails on the code. -/
theorem dlog_C1_counterexample :
    gStderr.logLevel ≤ SeverityInfo ∧
    writeCount (logf env0 gStderr SeverityInfo "\n").events = 0 := by
  constructor
  · decide
  · decide

/-- Claim C1, amended: a call strictly below the threshold returns
immediately with no output, no state change and no destination touched;
a call at or above the threshold whose message is non-empty after trimming
(and whose lazy destination resolution succeeds) produces exactly one write
(one formatted line or one syslog write). -/
theorem dlog_C1 :
    (∀ (env : Env) (g : Globals) (sev : Severity) (m : String),
      sev < g.logLevel → logf env g sev m = ⟨g, [], Term.normal⟩) ∧
    (∀ (env : Env) (g : Globals) (sev : Severity) (m : String),
      g.logLevel ≤ sev → SeverityDebug ≤ sev → sev ≤ SeverityFatal →
      g.useSyslog.isSome → env.syslogOk = true → env.openOk = true →
      renderTrim m ≠ "" →
      writeCount (logf env g sev m).events = 1) := by
  refine ⟨logf_filtered, fun env g sev m h1 h2 h3 h4 h5 h6 h7 => ?_⟩
  obtain ⟨ll, us, an, sf, sl, fn, fd⟩ := g
  have hnlt : ¬ sev < ll := not_lt.mpr h1
  have hm : ¬ ((renderTrim m).length ≤ 0) := by
    rw [string_length_le_zero_iff]
    exact h7
  have h3' : sev ≤ (6 : Int) := h3
  have hidx : (0 : Int) ≤ sev ∧ sev < 7 :=
    ⟨h2, lt_of_le_of_lt h3' (by norm_num)⟩
  rcases us with _ | u
  · simp at h4
  · cases u <;> rcases sl with _ | sl <;> rcases fd with _ | fd <;>
      rcases fn with _ | ⟨_ | ⟨c, cs⟩⟩ <;>
      simp only [logf, hnlt, hm, if_false, ite_false, resolveSyslogger,
                 resolveOutFd, writeStep, hidx.1, hidx.2] <;>
      simp [writeCount, isWriteEvent, h5, h6, String.length]

theorem dlog_C1_witness :
    ((-1 : Severity) < gStderr.logLevel ∨ True) ∧
    logf env0 gStderr (-1) "hello" = ⟨gStderr, [], Term.normal⟩ ∧
    writeCount (logf env0 gStderr SeverityInfo "hello").events = 1 :=
  ⟨Or.inr trivial,
   dlog_C1.1 env0 gStderr (-1) "hello" (by decide),
   dlog_C1.2 env0 gStderr SeverityInfo "hello" (by decide) (by decide)
     (by decide) (by decide) rfl rfl (by decide)⟩

/-- Claim C2, counterexample: with both the syslog switch and a non-empty
file path configured, the first accepted call does construct the syslogger
and write to it, but it also opens the log file — a second destination is
established, contradicting the claim that no other destination is touched. -/
theorem dlog_C2_counterexample :
    (logf env0 gBoth SeverityInfo "hello").events =
      [Event.newSyslogger "DAEMON" "app", Event.openFile "app.log",
       Event.syslogWrite 6 "hello"] ∧
    (logf env0 gBoth SeverityInfo "hello").g.outFd = some () := by
  constructor
  · decide
  · decide

/-- Claim C2, amended: with both the syslog switch and a non-empty file
path configured, every write goes exclusively to the system logger, but the
log file is nonetheless opened (and the handle retained) on first use; with
only a file path, the line is written to the file; with neither, the line
is written to standard error. -/
theorem dlog_C2 :
    (∀ (env : Env) (g : Globals) (sev : Severity) (m : String) (p : String),
      g.useSyslog = some true → g.syslogger = none → g.fileName = some p →
      p ≠ "" → g.outFd = none → env.syslogOk = true → env.openOk = true →
      g.logLevel ≤ sev → SeverityDebug ≤ sev → sev ≤ SeverityFatal →
      renderTrim m ≠ "" →
      (logf env g sev m).events =
        [Event.newSyslogger g.syslogFacility g.appName, Event.openFile p,
         Event.syslogWrite (severityToSyslogPriority.getD sev.toNat 0)
           (renderTrim m)]) ∧
    (∀ (env : Env) (g : Globals) (sev : Severity) (m : String) (p : String),
      g.useSyslog = some false → g.syslogger = none → g.fileName = some p →
      p ≠ "" → g.outFd = none → env.openOk = true →
      g.logLevel ≤ sev → SeverityDebug ≤ sev → sev ≤ SeverityFatal →
      renderTrim m ≠ "" →
      (logf env g sev m).events =
        [Event.openFile p,
         Event.fileWrite (formatLine env.now g.appName
           (SeverityName.getD sev.toNat "") (renderTrim m))]) ∧
    (∀ (env : Env) (g : Globals) (sev : Severity) (m : String),
      g.useSyslog = some false → g.syslogger = none → g.fileName = some "" →
      g.outFd = none →
      g.logLevel ≤ sev → SeverityDebug ≤ sev → sev ≤ SeverityFatal →
      renderTrim m ≠ "" →
      (logf env g sev m).events =
        [Event.stderrWrite (formatLine env.now g.appName
           (SeverityName.getD sev.toNat "") (renderTrim m))]) := by
  refine ⟨fun env g sev m p hA hB hC hp hD h5 h6 h1 h2 h3 h7 => ?_,
          fun env g sev m p hA hB hC hp hD h6 h1 h2 h3 h7 => ?_,
          fun env g sev m hA hB hC hD h1 h2 h3 h7 => ?_⟩ <;>
    obtain ⟨ll, us, an, sf, sl, fn, fd⟩ := g <;>
    obtain rfl : us = _ := hA <;>
    obtain rfl : sl = none := hB <;>
    obtain rfl : fn = _ := hC <;>
    obtain rfl : fd = none := hD
  · obtain ⟨_ | ⟨c, cs⟩⟩ := p
    · exact absurd rfl hp
    · have hnlt : ¬ sev < ll := not_lt.mpr h1
      have hm : ¬ ((renderTrim m).length ≤ 0) := by
        rw [string_length_le_zero_iff]
        exact h7
      have h3' : sev ≤ (6 : Int) := h3
      have hidx : (0 : Int) ≤ sev ∧ sev < 7 :=
        ⟨h2, lt_of_le_of_lt h3' (by norm_num)⟩
      simp only [logf, hnlt, hm, if_false, ite_false, resolveSyslogger,
                 resolveOutFd, writeStep, hidx.1, hidx.2]
      simp [h5, h6, String.length]
  · obtain ⟨_ | ⟨c, cs⟩⟩ := p
    · exact absurd rfl hp
    · have hnlt : ¬ sev < ll := not_lt.mpr h1
      have hm : ¬ ((renderTrim m).length ≤ 0) := by
        rw [string_length_le_zero_iff]
        exact h7
      have h3' : sev ≤ (6 : Int) := h3
      have hidx : (0 : Int) ≤ sev ∧ sev < 7 :=
        ⟨h2, lt_of_le_of_lt h3' (by norm_num)⟩
      simp only [logf, hnlt, hm, if_false, ite_false, resolveSyslogger,
                 resolveOutFd, writeStep, hidx.1, hidx.2]
      simp [h6, String.length]
  · have hnlt : ¬ sev < ll := not_lt.mpr h1
    have hm : ¬ ((renderTrim m).length ≤ 0) := by
      rw [string_length_le_zero_iff]
      exact h7
    have h3' : sev ≤ (6 : Int) := h3
    have hidx : (0 : Int) ≤ sev ∧ sev < 7 :=
      ⟨h2, lt_of_le_of_lt h3' (by norm_num)⟩
    simp only [logf, hnlt, hm, if_false, ite_false, resolveSyslogger,
               resolveOutFd, writeStep, hidx.1, hidx.2]
    simp [String.length]

theorem dlog_C2_witness :
    (logf env0 gBoth SeverityInfo "hello").events =
      [Event.newSyslogger gBoth.syslogFacility gBoth.appName,
       Event.openFile "app.log",
       Event.syslogWrite (severityToSyslogPriority.getD SeverityInfo.toNat 0)
         (renderTrim "hello")] ∧
    (logf env0 gFile SeverityInfo "hello").events =
      [Event.openFile "app.log",
       Event.fileWrite (formatLine env0.now gFile.appName
         (SeverityName.getD SeverityInfo.toNat "") (renderTrim "hello"))] ∧
    (logf env0 gStderr SeverityInfo "hello").events =
      [Event.stderrWrite (formatLine env0.now gStderr.appName
         (SeverityName.getD SeverityInfo.toNat "") (renderTrim "hello"))] :=
  ⟨dlog_C2.1 env0 gBoth SeverityInfo "hello" "app.log" rfl rfl rfl (by decide)
     rfl rfl rfl (by decide) (by decide) (by decide) (by decide),
   dlog_C2.2.1 env0 gFile SeverityInfo "hello" "app.log" rfl rfl rfl
     (by decide) rfl rfl (by decide) (by decide) (by decide) (by decide),
   dlog_C2.2.2 env0 gStderr SeverityInfo "hello" rfl rfl rfl rfl
     (by decide) (by decide) (by decide) (by decide)⟩

/-- The `ok` result of the lazy syslogger resolution: it emits at most the
one construction event and never changes the application name. -/
lemma resolveSyslogger_ok_spec (env : Env) (g : Globals) (u : Bool)
    (g1 : Globals) (ev1 : List Event)
    (hok : resolveSyslogger env g u = .ok (g1, ev1)) :
    (ev1 = [] ∨ ev1 = [Event.newSyslogger g.syslogFacility g.appName]) ∧
    g1.appName = g.appName := by
  unfold resolveSyslogger at hok
  by_cases hb : (u && g.syslogger.isNone) = true
  · rw [if_pos hb] at hok
    by_cases hs : env.syslogOk = true
    · rw [if_pos hs] at hok
      simp only [Except.ok.injEq, Prod.mk.injEq] at hok
      obtain ⟨hg, hev⟩ := hok
      subst hg
      exact ⟨Or.inr hev.symm, rfl⟩
    · rw [if_neg hs] at hok
      exact absurd hok (by simp)
  · rw [if_neg hb] at hok
    simp only [Except.ok.injEq, Prod.mk.injEq] at hok
    obtain ⟨hg, hev⟩ := hok
    subst hg
    exact ⟨Or.inl hev.symm, rfl⟩

/-- The `ok` result of the lazy file-open resolution: it emits at most one
open event and never changes the application name. -/
lemma resolveOutFd_ok_spec (env : Env) (g : Globals)
    (g2 : Globals) (ev2 : List Event)
    (hok : resolveOutFd env g = .ok (g2, ev2)) :
    (ev2 = [] ∨ ∃ p, ev2 = [Event.openFile p]) ∧
    g2.appName = g.appName := by
  unfold resolveOutFd at hok
  split at hok
  next x fn heq =>
    by_cases hb : (fn.length > 0 && g.outFd.isNone) = true
    · rw [if_pos hb] at hok
      by_cases ho : env.openOk = true
      · rw [if_pos ho] at hok
        simp only [Except.ok.injEq, Prod.mk.injEq] at hok
        obtain ⟨hg, hev⟩ := hok
        subst hg
        exact ⟨Or.inr ⟨fn, hev.symm⟩, rfl⟩
      · rw [if_neg ho] at hok
        exact absurd hok (by simp)
    · rw [if_neg hb] at hok
      simp only [Except.ok.injEq, Prod.mk.injEq] at hok
      obtain ⟨hg, hev⟩ := hok
      subst hg
      exact ⟨Or.inl hev.symm, rfl⟩
  next x heq =>
    simp only [Except.ok.injEq, Prod.mk.injEq] at hok
    obtain ⟨hg, hev⟩ := hok
    subst hg
    exact ⟨Or.inl hev.symm, rfl⟩

/-- Any file or standard-error line emitted by the write step is exactly
the formatted line of the source (timestamp, app name, severity name,
message). -/
lemma writeStep_ok_line (env : Env) (g : Globals) (sev : Severity)
    (msg : String) (evs : List Event) (l : String)
    (hok : writeStep env g sev msg = .ok evs)
    (h : Event.fileWrite l ∈ evs ∨ Event.stderrWrite l ∈ evs) :
    l = formatLine env.now g.appName (SeverityName.getD sev.toNat "") msg := by
  unfold writeStep at hok
  by_cases hidx : (0 ≤ sev ∧ sev < 7)
  · rw [if_pos hidx] at hok
    by_cases hsl : g.syslogger.isSome = true
    · rw [if_pos hsl] at hok
      simp only [Except.ok.injEq] at hok
      subst hok
      simp at h
    · rw [if_neg hsl] at hok
      by_cases hfd : g.outFd.isSome = true
      · rw [if_pos hfd] at hok
        simp only [Except.ok.injEq] at hok
        subst hok
        rcases h with h | h
        · rw [List.mem_singleton] at h
          injection h
        · rw [List.mem_singleton] at h
          exact absurd h (by simp)
      · rw [if_neg hfd] at hok
        simp only [Except.ok.injEq] at hok
        subst hok
        rcases h with h | h
        · rw [List.mem_singleton] at h
          exact absurd h (by simp)
        · rw [List.mem_singleton] at h
          injection h
  · rw [if_neg hidx] at hok
    exact absurd hok (by simp)

/-- Claim C4: a Fatal-severity call that passes the threshold filter and
carries a non-empty trimmed message (with the destination resolvable)
always terminates the process with exit code 255, and only after exactly
one write — the write is the last emitted event. -/
theorem dlog_C4 (env : Env) (g : Globals) (m : String)
    (h1 : g.logLevel ≤ SeverityFatal) (h4 : g.useSyslog.isSome)
    (h5 : env.syslogOk = true) (h6 : env.openOk = true)
    (h7 : renderTrim m ≠ "") :
    (Fatalf env g m).term = Term.exited 255 ∧
    writeCount (Fatalf env g m).events = 1 ∧
    ∃ w, (Fatalf env g m).events.getLast? = some w ∧ isWriteEvent w = true := by
  obtain ⟨ll, us, an, sf, sl, fn, fd⟩ := g
  have hnlt : ¬ SeverityFatal < ll := not_lt.mpr h1
  have hm : ¬ ((renderTrim m).length ≤ 0) := by
    rw [string_length_le_zero_iff]
    exact h7
  have hidx : (0 : Int) ≤ SeverityFatal ∧ SeverityFatal < 7 := by decide
  have hge : SeverityFatal ≥ SeverityFatal := le_refl _
  rcases us with _ | u
  · simp at h4
  · cases u <;> rcases sl with _ | sl <;> rcases fd with _ | fd <;>
      rcases fn with _ | ⟨_ | ⟨c, cs⟩⟩ <;>
      simp only [Fatalf, logf, hnlt, hm, if_false, ite_false, resolveSyslogger,
                 resolveOutFd, writeStep, hidx.1, hidx.2] <;>
      simp [writeCount, isWriteEvent, h5, h6, String.length, List.getLast?, hge]

theorem dlog_C4_witness :
    (Fatalf env0 gFile "boom").term = Term.exited 255 ∧
    writeCount (Fatalf env0 gFile "boom").events = 1 ∧
    ∃ w, (Fatalf env0 gFile "boom").events.getLast? = some w ∧
      isWriteEvent w = true :=
  dlog_C4 env0 gFile "boom" (by decide) (by decide) rfl rfl (by decide)

/-- Claim C5, counterexample: the source formats the year with `%d`, not
`%04d`; at year 999 the written line has a three-digit year and differs
from the spec's byte-exact `%04d` contract. -/
theorem dlog_C5_counterexample :
    (logf env999 gStderr SeverityInfo "hello").events =
      [Event.stderrWrite "[999-01-02 03:04:05] [myapp] [INFO] hello\n"] ∧
    formatLineSpec ⟨999, 1, 2, 3, 4, 5⟩ "myapp" "INFO" "hello" =
      "[0999-01-02 03:04:05] [myapp] [INFO] hello\n" ∧
    "[999-01-02 03:04:05] [myapp] [INFO] hello\n" ≠
      "[0999-01-02 03:04:05] [myapp] [INFO] hello\n" :=
  ⟨by decide, by decide, by decide⟩

/-- Claim C5, amended: each line written to the file or standard-error
destination is exactly `[%d-%02d-%02d %02d:%02d:%02d] [%s] [%s] %s\n` —
unpadded year, zero-padded month/day/time, application name, upper-case
severity name, trimmed message; this coincides with the spec's `%04d` year
whenever the year's decimal form has at least four digits. -/
theorem dlog_C5 :
    (∀ (env : Env) (g : Globals) (sev : Severity) (m : String) (line : String),
      (Event.fileWrite line ∈ (logf env g sev m).events ∨
       Event.stderrWrite line ∈ (logf env g sev m).events) →
      line = formatLine env.now g.appName (SeverityName.getD sev.toNat "")
        (renderTrim m)) ∧
    (∀ (t : DateTime) (a s m : String),
      4 ≤ (toString t.year).length → formatLine t a s m = formatLineSpec t a s m) := by
  constructor
  · intro env g sev m line h
    by_cases h1 : sev < g.logLevel
    · rw [logf_filtered env g sev m h1] at h
      simp at h
    · by_cases h2 : (renderTrim m).length ≤ 0
      · have heq : logf env g sev m = ⟨g, [], Term.normal⟩ := by
          unfold logf
          rw [if_neg h1]
          simp only [h2, if_true, ite_true]
        rw [heq] at h
        simp at h
      · unfold logf at h
        rw [if_neg h1] at h
        simp only [h2, if_false, ite_false] at h
        rcases hus : g.useSyslog with _ | u <;> rw [hus] at h
        · simp at h
        · simp only [] at h
          rcases hrs : resolveSyslogger env g u with e | g1ev <;> rw [hrs] at h
          · simp at h
          · obtain ⟨g1, ev1⟩ := g1ev
            simp only [] at h
            rcases hro : resolveOutFd env g1 with e2 | g2ev <;> rw [hro] at h
            · obtain ⟨hev1, hap1⟩ := resolveSyslogger_ok_spec env g u g1 ev1 hrs
              rcases hev1 with rfl | rfl <;> simp at h
            · obtain ⟨g2, ev2⟩ := g2ev
              simp only [] at h
              rcases hws : writeStep env g2 sev (renderTrim m) with e3 | ev3 <;>
                rw [hws] at h
              · obtain ⟨hev1, hap1⟩ := resolveSyslogger_ok_spec env g u g1 ev1 hrs
                obtain ⟨hev2, hap2⟩ := resolveOutFd_ok_spec env g1 g2 ev2 hro
                rcases hev1 with rfl | rfl <;> rcases hev2 with rfl | ⟨p, rfl⟩ <;>
                  simp at h
              · simp only [] at h
                obtain ⟨hev1, hap1⟩ := resolveSyslogger_ok_spec env g u g1 ev1 hrs
                obtain ⟨hev2, hap2⟩ := resolveOutFd_ok_spec env g1 g2 ev2 hro
                have hline := writeStep_ok_line env g2 sev (renderTrim m) ev3 line hws
                rw [hap2, hap1] at hline
                rcases hev1 with rfl | rfl <;> rcases hev2 with rfl | ⟨p, rfl⟩ <;>
                  rcases h with h | h <;> (try simp at h) <;>
                  first
                    | exact hline (Or.inl h)
                    | exact hline (Or.inr h)
  · intro t a s m h
    have h' : ¬ (toString t.year).length < 4 := not_lt.mpr h
    simp [formatLine, formatLineSpec, pad4, h']

theorem dlog_C5_witness :
    "[2024-03-09 07:05:30] [myapp] [INFO] hello\n" =
      formatLine env0.now gStderr.appName
        (SeverityName.getD SeverityInfo.toNat "") (renderTrim "hello") ∧
    formatLine ⟨2024, 3, 9, 7, 5, 30⟩ "myapp" "INFO" "hello" =
      formatLineSpec ⟨2024, 3, 9, 7, 5, 30⟩ "myapp" "INFO" "hello" :=
  ⟨dlog_C5.1 env0 gStderr SeverityInfo "hello"
     "[2024-03-09 07:05:30] [myapp] [INFO] hello\n" (Or.inr (by decide)),
   dlog_C5.2 ⟨2024, 3, 9, 7, 5, 30⟩ "myapp" "INFO" "hello" (by decide)⟩

/-- Claim C7: destination resolution is sticky and happens at most once —
with a configured file path, two consecutive accepted calls perform exactly
one open and the second call reuses the handle unchanged; likewise the
syslogger is constructed at most once. -/
theorem dlog_C7 :
    (∀ (env : Env) (g : Globals) (p : String) (sev1 sev2 : Severity) (m1 m2 : String),
      g.useSyslog = some false → g.syslogger = none → g.fileName = some p →
      p ≠ "" → g.outFd = none → env.openOk = true →
      g.logLevel ≤ sev1 → SeverityDebug ≤ sev1 → sev1 < SeverityFatal →
      g.logLevel ≤ sev2 → SeverityDebug ≤ sev2 → sev2 ≤ SeverityFatal →
      renderTrim m1 ≠ "" → renderTrim m2 ≠ "" →
      openCount ((logf env g sev1 m1).events ++
        (logf env (logf env g sev1 m1).g sev2 m2).events) = 1 ∧
      (logf env g sev1 m1).g.outFd = some () ∧
      (logf env (logf env g sev1 m1).g sev2 m2).g = (logf env g sev1 m1).g) ∧
    (∀ (env : Env) (g : Globals) (sev1 sev2 : Severity) (m1 m2 : String),
      g.useSyslog = some true → g.syslogger = none → g.fileName = some "" →
      g.outFd = none → env.syslogOk = true →
      g.logLevel ≤ sev1 → SeverityDebug ≤ sev1 → sev1 < SeverityFatal →
      g.logLevel ≤ sev2 → SeverityDebug ≤ sev2 → sev2 ≤ SeverityFatal →
      renderTrim m1 ≠ "" → renderTrim m2 ≠ "" →
      newSysloggerCount ((logf env g sev1 m1).events ++
        (logf env (logf env g sev1 m1).g sev2 m2).events) = 1 ∧
      (logf env (logf env g sev1 m1).g sev2 m2).g = (logf env g sev1 m1).g) := by
  constructor
  · intro env g p sev1 sev2 m1 m2 hA hB hC hp hD h6 ha1 hb1 hc1 ha2 hb2 hc2 hm1 hm2
    obtain ⟨ll, us, an, sf, sl, fn, fd⟩ := g
    obtain rfl : us = some false := hA
    obtain rfl : sl = none := hB
    obtain rfl : fn = some p := hC
    obtain rfl : fd = none := hD
    obtain ⟨_ | ⟨c, cs⟩⟩ := p
    · exact absurd rfl hp
    · have hnlt1 : ¬ sev1 < ll := not_lt.mpr ha1
      have hnlt2 : ¬ sev2 < ll := not_lt.mpr ha2
      have hm1' : ¬ ((renderTrim m1).length ≤ 0) := by
        rw [string_length_le_zero_iff]
        exact hm1
      have hm2' : ¬ ((renderTrim m2).length ≤ 0) := by
        rw [string_length_le_zero_iff]
        exact hm2
      have hc1' : sev1 < (6 : Int) := hc1
      have hc2' : sev2 ≤ (6 : Int) := hc2
      have hidx1 : (0 : Int) ≤ sev1 ∧ sev1 < 7 :=
        ⟨hb1, lt_trans hc1' (by norm_num)⟩
      have hidx2 : (0 : Int) ≤ sev2 ∧ sev2 < 7 :=
        ⟨hb2, lt_of_le_of_lt hc2' (by norm_num)⟩
      simp only [logf, resolveSyslogger, resolveOutFd, writeStep, hnlt1, hnlt2,
                 hm1', hm2', hidx1.1, hidx1.2, hidx2.1, hidx2.2, if_false, ite_false]
      simp [openCount, isOpenEvent, h6, String.length, hnlt1, hnlt2, hm1', hm2',
            hidx1.1, hidx1.2, hidx2.1, hidx2.2]
  · intro env g sev1 sev2 m1 m2 hA hB hC hD h5 ha1 hb1 hc1 ha2 hb2 hc2 hm1 hm2
    obtain ⟨ll, us, an, sf, sl, fn, fd⟩ := g
    obtain rfl : us = some true := hA
    obtain rfl : sl = none := hB
    obtain rfl : fn = some "" := hC
    obtain rfl : fd = none := hD
    have hnlt1 : ¬ sev1 < ll := not_lt.mpr ha1
    have hnlt2 : ¬ sev2 < ll := not_lt.mpr ha2
    have hm1' : ¬ ((renderTrim m1).length ≤ 0) := by
      rw [string_length_le_zero_iff]
      exact hm1
    have hm2' : ¬ ((renderTrim m2).length ≤ 0) := by
      rw [string_length_le_zero_iff]
      exact hm2
    have hc1' : sev1 < (6 : Int) := hc1
    have hc2' : sev2 ≤ (6 : Int) := hc2
    have hidx1 : (0 : Int) ≤ sev1 ∧ sev1 < 7 :=
      ⟨hb1, lt_trans hc1' (by norm_num)⟩
    have hidx2 : (0 : Int) ≤ sev2 ∧ sev2 < 7 :=
      ⟨hb2, lt_of_le_of_lt hc2' (by norm_num)⟩
    simp only [logf, resolveSyslogger, resolveOutFd, writeStep, hnlt1, hnlt2,
               hm1', hm2', hidx1.1, hidx1.2, hidx2.1, hidx2.2, if_false, ite_false]
    simp [newSysloggerCount, isNewSysloggerEvent, h5, String.length, hnlt1, hnlt2,
          hm1', hm2', hidx1.1, hidx1.2, hidx2.1, hidx2.2]

theorem dlog_C7_witness :
    (openCount ((logf env0 gFile SeverityInfo "a").events ++
        (logf env0 (logf env0 gFile SeverityInfo "a").g SeverityNotice "b").events) = 1 ∧
      (logf env0 gFile SeverityInfo "a").g.outFd = some () ∧
      (logf env0 (logf env0 gFile SeverityInfo "a").g SeverityNotice "b").g =
        (logf env0 gFile SeverityInfo "a").g) ∧
    (newSysloggerCount ((logf env0 gSyslogOnly SeverityInfo "a").events ++
        (logf env0 (logf env0 gSyslogOnly SeverityInfo "a").g SeverityNotice "b").events) = 1 ∧
      (logf env0 (logf env0 gSyslogOnly SeverityInfo "a").g SeverityNotice "b").g =
        (logf env0 gSyslogOnly SeverityInfo "a").g) :=
  ⟨dlog_C7.1 env0 gFile "app.log" SeverityInfo SeverityNotice "a" "b" rfl rfl rfl
     (by decide) rfl rfl (by decide) (by decide) (by decide) (by decide) (by decide)
     (by decide) (by decide) (by decide),
   dlog_C7.2 env0 gSyslogOnly SeverityInfo SeverityNotice "a" "b" rfl rfl rfl rfl rfl
     (by decide) (by decide) (by decide) (by decide) (by decide) (by decide)
     (by decide) (by decide)⟩

end Dlog
